import Mathlib

/-!
# Verification of the TriRPC-Lab scenario harness

Shallow embedding of the scenario execution/reporting harness:
* `packages/impl-ethers/src/index.ts` (`runScenario`, `ethersRunner.runAll`)
* `packages/impl-viem/src/index.ts` (`runScenario`, `viemRunner.runAll`)
* `scripts/run-all.ts` (`requireEnv`, `loadContext`, `summarize`,
  `renderClientSection`, `renderComparison`, `main`)

The blockchain node and the client libraries' transport are external
collaborators; each RPC round-trip the runners perform is modelled as an
oracle field of a "world" record that yields either a value or a thrown
JavaScript error.  Wall-clock durations (`Date.now() - start`) are modelled
as a per-scenario duration oracle.
-/

/-- The six fixed scenario identifiers (`ScenarioId` union type in
`packages/scenarios`). -/
inductive ScenarioId where
  | chainInfo
  | accountState
  | contractRead
  | txSendNative
  | txWriteContract
  | txQueryLifecycle
deriving Repr, DecidableEq

/-- The string form of each identifier, as it appears in the TS union type
and in the rendered report. -/
def ScenarioId.name : ScenarioId → String
  | .chainInfo => "chain-info"
  | .accountState => "account-state"
  | .contractRead => "contract-read"
  | .txSendNative => "tx-send-native"
  | .txWriteContract => "tx-write-contract"
  | .txQueryLifecycle => "tx-query-lifecycle"

/-- Scalar JSON-ish values appearing in a scenario's `output` record
(`Record<string, unknown>`; the runners only ever store strings, numbers,
booleans and `null`). -/
inductive Value where
  | str (s : String)
  | num (n : Int)
  | bool (b : Bool)
  | null
deriving Repr, DecidableEq

/-- A scenario `output` record: field names with values, in insertion
order. -/
abbrev Output := List (String × Value)

/-- A thrown JavaScript value as the executor's `catch` sees it
(`error instanceof Error ? error.message : String(error)`): either an
`Error` instance carrying a message, or any other thrown value kept as its
`String(...)` form. -/
inductive JsError where
  | error (message : String)
  | thrown (stringForm : String)
deriving Repr, DecidableEq

/-- The message the executor records for a thrown value: the `.message` of
an `Error`, otherwise the value's string form. -/
def JsError.toMessage : JsError → String
  | .error m => m
  | .thrown s => s

/-- The settled outcome of a scenario's asynchronous task. -/
abbrev TaskResult := Except JsError Output

/-- `ScenarioResult` (`packages/scenarios`): `error` is optional, `output`
is always present (the empty record on failure). -/
structure ScenarioResult where
  id : ScenarioId
  success : Bool
  durationMs : Nat
  output : Output
  error : Option String
deriving Repr, DecidableEq

/-- The Scenario Executor `runScenario` (identical in
`impl-ethers/src/index.ts` lines 16-33 and `impl-viem/src/index.ts` lines
25-42): on task success, `success=true`, `output` = the task's record, no
`error`; on a thrown value, `success=false`, empty `output`, `error` = the
thrown value's message.  `durationMs` is the measured `Date.now() - start`
in either case, supplied here by the duration oracle. -/
def runScenario (id : ScenarioId) (durationMs : Nat) (task : TaskResult) : ScenarioResult :=
  match task with
  | .ok output => { id := id, success := true, durationMs := durationMs, output := output, error := none }
  | .error e =>
    { id := id, success := false, durationMs := durationMs, output := []
      error := some e.toMessage }

/-- The per-run mutable `txHashes` record (`{ native?, contract? }`)
scoped to a single `runAll` invocation. -/
structure TxHashes where
  native : Option String
  contract : Option String
deriving Repr, DecidableEq

/-- `txHashes.contract ?? txHashes.native`: the hash the
`tx-query-lifecycle` scenario queries (both runners). -/
def lifecycleTarget (h : TxHashes) : Option String :=
  match h.contract with
  | some s => some s
  | none => h.native

/-- `Value.null` for a JS `null`, `Value.num` otherwise (`x ?? null` on an
optional number). -/
def optIntValue : Option Int → Value
  | some n => Value.num n
  | none => Value.null

/-- `Value.null` for a JS `null`, `Value.str` otherwise. -/
def optStrValue : Option String → Value
  | some s => Value.str s
  | none => Value.null

/-! ## The ethers runner (`packages/impl-ethers/src/index.ts`) -/

/-- A receipt as the ethers scenarios consume it: `receipt.status` is
`number | null`, `receipt.blockNumber` a number. -/
structure EthersTxReceipt where
  status : Option Int
  blockNumber : Int
deriving Repr, DecidableEq

/-- A broadcast transaction response (`tx.hash`). -/
structure EthersSentTx where
  hash : String
deriving Repr, DecidableEq

/-- `provider.getTransaction` result body: `blockNumber` is
`number | null` (null while pending). -/
structure EthersLifecycleTx where
  blockNumber : Option Int
deriving Repr, DecidableEq

/-- Oracle for every RPC round-trip `ethersRunner.runAll` performs, in
program order, plus the per-scenario measured durations.  `Except.error`
models the underlying promise rejecting. -/
structure EthersWorld where
  /-- `provider.getNetwork()`, reduced to `Number(network.chainId)`. -/
  chainId : Except JsError Int
  /-- `provider.getBlockNumber()` inside `chain-info`. -/
  blockNumber0 : Except JsError Int
  /-- `wallet.address`. -/
  walletAddress : String
  /-- `provider.getBalance(wallet.address)`. -/
  balance : Except JsError Int
  /-- `provider.getTransactionCount(wallet.address)`. -/
  txCount : Except JsError Int
  /-- `counter.getCount()`. -/
  getCount : Except JsError Int
  /-- `wallet.sendTransaction({to, value: parseEther('0.0001')})`. -/
  sendTx : Except JsError EthersSentTx
  /-- `tx.wait()` for the native transfer (resolves to `receipt | null`). -/
  sendWait : Except JsError (Option EthersTxReceipt)
  /-- `counter.increment()`. -/
  incrementTx : Except JsError EthersSentTx
  /-- `tx.wait()` for the increment call. -/
  incrementWait : Except JsError (Option EthersTxReceipt)
  /-- `provider.getTransaction(hash)` (resolves to `tx | null`). -/
  getTransaction : String → Except JsError (Option EthersLifecycleTx)
  /-- `provider.getTransactionReceipt(hash)` (resolves to `receipt | null`). -/
  getTransactionReceipt : String → Except JsError (Option EthersTxReceipt)
  /-- `provider.getBlockNumber()` inside `tx-query-lifecycle`. -/
  blockNumber1 : Except JsError Int
  /-- measured `Date.now() - start` per scenario. -/
  durations : ScenarioId → Nat

namespace Ethers

/-- Scenario 1 `chain-info` task (lines 46-49): chainId and block number
fetched with `Promise.all`. -/
def chainInfoTask (w : EthersWorld) : TaskResult := do
  let chainId ← w.chainId
  let blockNumber ← w.blockNumber0
  pure [("chainId", Value.num chainId), ("blockNumber", Value.num blockNumber)]

/-- Scenario 2 `account-state` task (lines 50-56). -/
def accountStateTask (w : EthersWorld) : TaskResult := do
  let balance ← w.balance
  let nonce ← w.txCount
  pure [("address", Value.str w.walletAddress),
        ("balanceWei", Value.str (toString balance)),
        ("nonce", Value.num nonce)]

/-- Scenario 3 `contract-read` task (lines 57-60). -/
def contractReadTask (w : EthersWorld) : TaskResult := do
  let count ← w.getCount
  pure [("count", Value.str (toString count))]

/-- Scenario 4 `tx-send-native` task (lines 61-73), together with its
effect on `txHashes`: `txHashes.native = tx.hash` runs only after
`tx.wait()` resolved, so a hash is recorded exactly when the task
succeeds.  Output `status` is `receipt?.status ?? 0`, `blockNumber` is
`receipt?.blockNumber ?? null`. -/
def sendNativeStep (w : EthersWorld) (h : TxHashes) : TaskResult × TxHashes :=
  match w.sendTx with
  | .error e => (.error e, h)
  | .ok tx =>
    match w.sendWait with
    | .error e => (.error e, h)
    | .ok receipt =>
      (.ok [("hash", Value.str tx.hash),
            ("status", Value.num ((receipt.bind EthersTxReceipt.status).getD 0)),
            ("blockNumber", optIntValue (receipt.map EthersTxReceipt.blockNumber))],
       { h with native := some tx.hash })

/-- Scenario 5 `tx-write-contract` task (lines 74-83), with its effect on
`txHashes.contract`. -/
def writeContractStep (w : EthersWorld) (h : TxHashes) : TaskResult × TxHashes :=
  match w.incrementTx with
  | .error e => (.error e, h)
  | .ok tx =>
    match w.incrementWait with
    | .error e => (.error e, h)
    | .ok receipt =>
      (.ok [("hash", Value.str tx.hash),
            ("status", Value.num ((receipt.bind EthersTxReceipt.status).getD 0)),
            ("blockNumber", optIntValue (receipt.map EthersTxReceipt.blockNumber))],
       { h with contract := some tx.hash })

/-- Scenario 6 `tx-query-lifecycle` task (lines 84-102).  The target hash
is `txHashes.contract ?? txHashes.native`; with no hash the task throws
`'No transaction hash found from previous steps'`.  `confirmations` is
`tx?.blockNumber ? currentBlock - tx.blockNumber + 1 : 0`; note the JS
truthiness test: a missing transaction, a pending one (`null` block) and
inclusion block `0` all yield `0`. -/
def lifecycleTask (w : EthersWorld) (h : TxHashes) : TaskResult :=
  match lifecycleTarget h with
  | none => .error (.error "No transaction hash found from previous steps")
  | some targetHash => do
    let tx ← w.getTransaction targetHash
    let receipt ← w.getTransactionReceipt targetHash
    let currentBlock ← w.blockNumber1
    let confirmations : Int :=
      match tx with
      | some t =>
        match t.blockNumber with
        | some bn => if bn = 0 then 0 else currentBlock - bn + 1
        | none => 0
      | none => 0
    pure [("hash", Value.str targetHash),
          ("hasTransaction", Value.bool tx.isSome),
          ("hasReceipt", Value.bool receipt.isSome),
          ("status", optIntValue (receipt.bind EthersTxReceipt.status)),
          ("confirmations", Value.num confirmations)]

/-- `txHashes` after scenario 4 ran (initial state `{}`). -/
def hashes1 (w : EthersWorld) : TxHashes := (sendNativeStep w ⟨none, none⟩).2

/-- `txHashes` after scenarios 4 and 5 ran. -/
def hashes2 (w : EthersWorld) : TxHashes := (writeContractStep w (hashes1 w)).2

/-- The six entries of the result list, in program order. -/
def result1 (w : EthersWorld) : ScenarioResult :=
  runScenario .chainInfo (w.durations .chainInfo) (chainInfoTask w)

def result2 (w : EthersWorld) : ScenarioResult :=
  runScenario .accountState (w.durations .accountState) (accountStateTask w)

def result3 (w : EthersWorld) : ScenarioResult :=
  runScenario .contractRead (w.durations .contractRead) (contractReadTask w)

def result4 (w : EthersWorld) : ScenarioResult :=
  runScenario .txSendNative (w.durations .txSendNative) (sendNativeStep w ⟨none, none⟩).1

def result5 (w : EthersWorld) : ScenarioResult :=
  runScenario .txWriteContract (w.durations .txWriteContract) (writeContractStep w (hashes1 w)).1

def result6 (w : EthersWorld) : ScenarioResult :=
  runScenario .txQueryLifecycle (w.durations .txQueryLifecycle) (lifecycleTask w (hashes2 w))

/-- `ethersRunner.runAll` (lines 35-105): the six scenarios executed
sequentially, each through `runScenario`, sharing the per-run `txHashes`
record. -/
def runAll (w : EthersWorld) : List ScenarioResult :=
  [result1 w, result2 w, result3 w, result4 w, result5 w, result6 w]

end Ethers

/-! ## The viem runner (`packages/impl-viem/src/index.ts`) -/

/-- A viem transaction receipt: `status` is the string
`'success' | 'reverted'`, `blockNumber` a bigint (here `Int`). -/
structure ViemReceipt where
  status : String
  blockNumber : Int
deriving Repr, DecidableEq

/-- A viem `getTransaction` result: `blockNumber` (bigint) and optional
`to` address (null for contract creation). -/
structure ViemTx where
  blockNumber : Int
  toAddr : Option String
deriving Repr, DecidableEq

/-- Oracle for every RPC round-trip `viemRunner.runAll` performs, plus the
per-scenario measured durations.  Unlike ethers, viem's `getTransaction`,
`getTransactionReceipt` and `waitForTransactionReceipt` reject when the
object is not found instead of resolving to `null`, hence no `Option`
layer on their results. -/
structure ViemWorld where
  /-- `publicClient.getChainId()`. -/
  chainId : Except JsError Int
  /-- `publicClient.getBlockNumber()` inside `chain-info`, `Number(·)`-ed. -/
  blockNumber0 : Except JsError Int
  /-- `account.address`. -/
  accountAddress : String
  /-- `publicClient.getBalance({address})`. -/
  balance : Except JsError Int
  /-- `publicClient.getTransactionCount({address})`. -/
  txCount : Except JsError Int
  /-- `counter.read.getCount()`. -/
  getCount : Except JsError Int
  /-- `walletClient.sendTransaction(...)`, resolving to the hash. -/
  sendTx : Except JsError String
  /-- `publicClient.waitForTransactionReceipt({hash})` for the transfer. -/
  sendWait : Except JsError ViemReceipt
  /-- `counter.write.increment()`, resolving to the hash. -/
  incrementTx : Except JsError String
  /-- `publicClient.waitForTransactionReceipt({hash})` for the increment. -/
  incrementWait : Except JsError ViemReceipt
  /-- `publicClient.getTransaction({hash})`. -/
  getTransaction : String → Except JsError ViemTx
  /-- `publicClient.getTransactionReceipt({hash})`. -/
  getTransactionReceipt : String → Except JsError ViemReceipt
  /-- `publicClient.getBlockNumber()` inside `tx-query-lifecycle`. -/
  blockNumber1 : Except JsError Int
  /-- measured `Date.now() - start` per scenario. -/
  durations : ScenarioId → Nat

/-- Strips trailing `'0'` characters. -/
def trimTrailingZeros (s : String) : String :=
  String.mk ((s.toList.reverse.dropWhile (fun c => c = '0')).reverse)

/-- Model of viem's `formatEther` (third-party library): renders a wei
amount as a decimal ether string, dividing by `10^18` and trimming
trailing zeros of the fractional part. -/
def formatEther (wei : Int) : String :=
  let n := wei.natAbs
  let sign := if wei < 0 then "-" else ""
  let intPart := n / (10 : Nat) ^ 18
  let frac := n % (10 : Nat) ^ 18
  if frac = 0 then sign ++ toString intPart
  else
    let fracStr := toString frac
    let padded := String.mk (List.replicate (18 - fracStr.length) '0') ++ fracStr
    sign ++ toString intPart ++ "." ++ trimTrailingZeros padded

namespace Viem

/-- Scenario 1 `chain-info` task (lines 61-67). -/
def chainInfoTask (w : ViemWorld) : TaskResult := do
  let chainId ← w.chainId
  let blockNumber ← w.blockNumber0
  pure [("chainId", Value.num chainId), ("blockNumber", Value.num blockNumber)]

/-- Scenario 2 `account-state` task (lines 68-79): unlike ethers, also
reports `balanceEth = formatEther(balance)`. -/
def accountStateTask (w : ViemWorld) : TaskResult := do
  let balance ← w.balance
  let nonce ← w.txCount
  pure [("address", Value.str w.accountAddress),
        ("balanceWei", Value.str (toString balance)),
        ("balanceEth", Value.str (formatEther balance)),
        ("nonce", Value.num nonce)]

/-- Scenario 3 `contract-read` task (lines 80-83). -/
def contractReadTask (w : ViemWorld) : TaskResult := do
  let count ← w.getCount
  pure [("count", Value.str (toString count))]

/-- Scenario 4 `tx-send-native` task (lines 84-97) with its effect on
`txHashes.native` (assigned only after the receipt resolved). -/
def sendNativeStep (w : ViemWorld) (h : TxHashes) : TaskResult × TxHashes :=
  match w.sendTx with
  | .error e => (.error e, h)
  | .ok hash =>
    match w.sendWait with
    | .error e => (.error e, h)
    | .ok receipt =>
      (.ok [("hash", Value.str hash),
            ("status", Value.str receipt.status),
            ("blockNumber", Value.num receipt.blockNumber)],
       { h with native := some hash })

/-- Scenario 5 `tx-write-contract` task (lines 98-107) with its effect on
`txHashes.contract`. -/
def writeContractStep (w : ViemWorld) (h : TxHashes) : TaskResult × TxHashes :=
  match w.incrementTx with
  | .error e => (.error e, h)
  | .ok hash =>
    match w.incrementWait with
    | .error e => (.error e, h)
    | .ok receipt =>
      (.ok [("hash", Value.str hash),
            ("status", Value.str receipt.status),
            ("blockNumber", Value.num receipt.blockNumber)],
       { h with contract := some hash })

/-- Scenario 6 `tx-query-lifecycle` task (lines 108-126): target hash is
`txHashes.contract ?? txHashes.native`, throwing
`'No transaction hash found from previous steps'` when absent;
`confirmations = Number(currentBlock - tx.blockNumber + 1n)`.  The output
carries `hash`, `status`, `confirmations`, `blockNumber` and `to` — no
existence flags. -/
def lifecycleTask (w : ViemWorld) (h : TxHashes) : TaskResult :=
  match lifecycleTarget h with
  | none => .error (.error "No transaction hash found from previous steps")
  | some targetHash => do
    let tx ← w.getTransaction targetHash
    let receipt ← w.getTransactionReceipt targetHash
    let currentBlock ← w.blockNumber1
    pure [("hash", Value.str targetHash),
          ("status", Value.str receipt.status),
          ("confirmations", Value.num (currentBlock - tx.blockNumber + 1)),
          ("blockNumber", Value.num tx.blockNumber),
          ("to", optStrValue tx.toAddr)]

/-- `txHashes` after scenario 4 ran (initial state `{}`). -/
def hashes1 (w : ViemWorld) : TxHashes := (sendNativeStep w ⟨none, none⟩).2

/-- `txHashes` after scenarios 4 and 5 ran. -/
def hashes2 (w : ViemWorld) : TxHashes := (writeContractStep w (hashes1 w)).2

def result1 (w : ViemWorld) : ScenarioResult :=
  runScenario .chainInfo (w.durations .chainInfo) (chainInfoTask w)

def result2 (w : ViemWorld) : ScenarioResult :=
  runScenario .accountState (w.durations .accountState) (accountStateTask w)

def result3 (w : ViemWorld) : ScenarioResult :=
  runScenario .contractRead (w.durations .contractRead) (contractReadTask w)

def result4 (w : ViemWorld) : ScenarioResult :=
  runScenario .txSendNative (w.durations .txSendNative) (sendNativeStep w ⟨none, none⟩).1

def result5 (w : ViemWorld) : ScenarioResult :=
  runScenario .txWriteContract (w.durations .txWriteContract) (writeContractStep w (hashes1 w)).1

def result6 (w : ViemWorld) : ScenarioResult :=
  runScenario .txQueryLifecycle (w.durations .txQueryLifecycle) (lifecycleTask w (hashes2 w))

/-- `viemRunner.runAll` (lines 44-129). -/
def runAll (w : ViemWorld) : List ScenarioResult :=
  [result1 w, result2 w, result3 w, result4 w, result5 w, result6 w]

end Viem

/-! ## The report renderer and process model (`scripts/run-all.ts`) -/

/-- Escapes `"` and `\` as `JSON.stringify` does for the strings the
runners produce. -/
def jsonEscape (s : String) : String :=
  s.foldl
    (fun acc c =>
      if c = '"' then acc ++ "\\\""
      else if c = '\\' then acc ++ "\\\\"
      else acc.push c)
    ""

/-- One serialized scalar, as `JSON.stringify` renders it. -/
def Value.toJson : Value → String
  | .str s => "\"" ++ jsonEscape s ++ "\""
  | .num n => toString n
  | .bool b => if b then "true" else "false"
  | .null => "null"

/-- `JSON.stringify` of a flat output record, fields in insertion order. -/
def jsonStringify (o : Output) : String :=
  "\x7b"
    ++ String.intercalate ","
        (o.map (fun p => "\"" ++ jsonEscape p.1 ++ "\":" ++ Value.toJson p.2))
    ++ "\x7d"

/-- The per-runner summary computed by `summarize` (lines 34-39). -/
structure Summary where
  passed : Nat
  failed : Nat
  totalMs : Nat
deriving Repr, DecidableEq

/-- `summarize` (lines 34-39): `passed` counts successes, `failed` is
`results.length - passed`, `totalMs` folds durations. -/
def summarize (results : List ScenarioResult) : Summary :=
  let passed := (results.filter (fun r => r.success)).length
  { passed := passed
    failed := results.length - passed
    totalMs := results.foldl (fun sum r => sum + r.durationMs) 0 }

/-- The four interpolated fields of one row of a per-runner table
(`renderClientSection`, lines 42-48). -/
structure ClientRow where
  id : ScenarioId
  status : String
  durationMs : Nat
  details : String
deriving Repr, DecidableEq

/-- One table row of `renderClientSection`:
`status = r.success ? 'PASS' : 'FAIL'`,
`details = r.success ? JSON.stringify(r.output) : r.error` with
`details ?? ''` at interpolation. -/
def clientRow (r : ScenarioResult) : ClientRow :=
  { id := r.id
    status := if r.success then "PASS" else "FAIL"
    durationMs := r.durationMs
    details := if r.success then jsonStringify r.output else r.error.getD "" }

/-- The rendered markdown line for one result row. -/
def renderResultLine (r : ScenarioResult) : String :=
  "| " ++ (clientRow r).id.name ++ " | " ++ (clientRow r).status ++ " | "
    ++ toString (clientRow r).durationMs ++ " | " ++ (clientRow r).details ++ " |"

/-- `renderClientSection` (lines 41-63): summary counts followed by one
table row per result, in order. -/
def renderClientSection (name : String) (results : List ScenarioResult) : String :=
  let rows := String.intercalate "\n" (results.map renderResultLine)
  let s := summarize results
  String.intercalate "\n"
    ["## " ++ name, "",
     "- passed: " ++ toString s.passed,
     "- failed: " ++ toString s.failed,
     "- total duration: " ++ toString s.totalMs ++ "ms", "",
     "| scenario | status | duration(ms) | output |",
     "|---|---:|---:|---|",
     rows, ""]

/-- The four interpolated fields of one `renderComparison` table row. -/
structure ComparisonRow where
  id : ScenarioId
  eMs : Nat
  vMs : Nat
  winner : String
deriving Repr, DecidableEq

/-- `renderComparison` (lines 65-86), as the list of its table rows: ids
are taken from the ethers list; each side's duration is the first result
with that id, or `0` when absent (`?.durationMs ?? 0`); `winner` is
`'tie'` on equal durations, else the side with the strictly smaller
duration. -/
def renderComparisonRows (ethersResults viemResults : List ScenarioResult) : List ComparisonRow :=
  (ethersResults.map (fun r => r.id)).map
    (fun id =>
      let e := ethersResults.find? (fun r => r.id == id)
      let v := viemResults.find? (fun r => r.id == id)
      let eMs := (e.map (fun r => r.durationMs)).getD 0
      let vMs := (v.map (fun r => r.durationMs)).getD 0
      { id := id, eMs := eMs, vMs := vMs
        winner := if eMs = vMs then "tie" else if eMs < vMs then "ethers" else "viem" })

/-- The rendered markdown line for one comparison row. -/
def renderComparisonLine (row : ComparisonRow) : String :=
  "| " ++ row.id.name ++ " | " ++ toString row.eMs ++ " | " ++ toString row.vMs
    ++ " | " ++ row.winner ++ " |"

/-- `renderComparison`'s full markdown section. -/
def renderComparison (ethersResults viemResults : List ScenarioResult) : String :=
  String.intercalate "\n"
    ["## Speed Comparison", "",
     "| scenario | ethers(ms) | viem(ms) | faster |",
     "|---|---:|---:|---|",
     String.intercalate "\n"
       ((renderComparisonRows ethersResults viemResults).map renderComparisonLine),
     ""]

/-- `ScenarioContext` (`packages/scenarios`). -/
structure ScenarioContext where
  rpcUrl : String
  privateKey : String
  toAddress : String
  counterAddress : String
deriving Repr, DecidableEq

/-- The process environment `loadContext` consults: the environment
variables (`undefined` when unset) and the parsed
`contracts/deployments/local.json` deployment record (`none` when the
file does not exist; JSON parsing of an existing file is abstracted to its
`counterAddress`). -/
structure ProcessEnv where
  vars : String → Option String
  deployment : Option String

/-- `requireEnv` (lines 8-14): throws `Missing env var: <name>` when the
variable is unset; the `if (!value)` test also rejects the empty string
(falsy). -/
def requireEnv (vars : String → Option String) (name : String) : Except JsError String :=
  match vars name with
  | none => .error (.error ("Missing env var: " ++ name))
  | some v =>
    if v = "" then .error (.error ("Missing env var: " ++ name)) else .ok v

/-- `loadContext` (lines 16-32): checks the deployment file first, then
reads the three required environment variables in source order. -/
def loadContext (env : ProcessEnv) : Except JsError ScenarioContext :=
  match env.deployment with
  | none =>
    .error (.error "Missing contracts/deployments/local.json. Run `pnpm deploy:contract` first.")
  | some counterAddress => do
    let rpcUrl ← requireEnv env.vars "RPC_URL"
    let privateKey ← requireEnv env.vars "PRIVATE_KEY"
    let toAddress ← requireEnv env.vars "TO_ADDRESS"
    pure { rpcUrl := rpcUrl, privateKey := privateKey, toAddress := toAddress
           counterAddress := counterAddress }

/-- Observable outcome of one `main()` invocation (lines 88-113): the
process exit code, how many scenario executions ran, and what
`main().catch` logged. -/
structure RunOutcome where
  exitCode : Nat
  scenariosExecuted : Nat
  loggedError : Option String
deriving Repr, DecidableEq

/-- `main().catch(...)` (lines 88-113): `loadContext` runs before either
runner; when it throws, the rejection reaches `main().catch`, which logs
the error and calls `process.exit(1)` — no scenario has executed.  On a
loaded context both runners execute all scenarios and the report is
written. -/
def mainRun (env : ProcessEnv) (we : EthersWorld) (wv : ViemWorld) : RunOutcome :=
  match loadContext env with
  | .error e => { exitCode := 1, scenariosExecuted := 0, loggedError := some e.toMessage }
  | .ok _ctx =>
    { exitCode := 0
      scenariosExecuted := (Ethers.runAll we).length + (Viem.runAll wv).length
      loggedError := none }

/-! ## Concrete worlds used by witnesses -/

/-- A fully-successful ethers run against a local node. -/
def ethersAllOk : EthersWorld :=
  { chainId := .ok 31337
    blockNumber0 := .ok 100
    walletAddress := "0xf39F"
    balance := .ok 1000000000000000000
    txCount := .ok 2
    getCount := .ok 1
    sendTx := .ok ⟨"0xaaa1"⟩
    sendWait := .ok (some ⟨some 1, 101⟩)
    incrementTx := .ok ⟨"0xbbb2"⟩
    incrementWait := .ok (some ⟨some 1, 102⟩)
    getTransaction := fun _ => .ok (some ⟨some 102⟩)
    getTransactionReceipt := fun _ => .ok (some ⟨some 1, 102⟩)
    blockNumber1 := .ok 105
    durations := fun _ => 10 }

/-- An ethers run whose two transaction broadcasts reject. -/
def ethersNoTx : EthersWorld :=
  { ethersAllOk with
    sendTx := .error (.error "insufficient funds")
    incrementTx := .error (.error "execution reverted") }

/-- A fully-successful viem run against a local node. -/
def viemAllOk : ViemWorld :=
  { chainId := .ok 31337
    blockNumber0 := .ok 100
    accountAddress := "0xf39F"
    balance := .ok 1000000000000000000
    txCount := .ok 2
    getCount := .ok 1
    sendTx := .ok "0xaaa1"
    sendWait := .ok ⟨"success", 101⟩
    incrementTx := .ok "0xbbb2"
    incrementWait := .ok ⟨"success", 102⟩
    getTransaction := fun _ => .ok ⟨102, some "0xdc64"⟩
    getTransactionReceipt := fun _ => .ok ⟨"success", 102⟩
    blockNumber1 := .ok 105
    durations := fun _ => 12 }

/-- A viem run whose two transaction broadcasts reject. -/
def viemNoTx : ViemWorld :=
  { viemAllOk with
    sendTx := .error (.error "insufficient funds")
    incrementTx := .error (.error "execution reverted") }

/-! ## Shared lemmas -/

/-- The executor tags its result with the scenario id it was given. -/
theorem runScenario_id (i : ScenarioId) (d : Nat) (t : TaskResult) :
    (runScenario i d t).id = i := by
  cases t <;> rfl

/-- The executor records the measured duration in either branch. -/
theorem runScenario_durationMs (i : ScenarioId) (d : Nat) (t : TaskResult) :
    (runScenario i d t).durationMs = d := by
  cases t <;> rfl

/-! ## Claims -/

/-- Claim C1: for every scenario context (modelled as an arbitrary oracle
world per runner), `runAll` returns exactly six `ScenarioResult`s, one per
scenario identifier, in the fixed order [chain-info, account-state,
contract-read, tx-send-native, tx-write-contract, tx-query-lifecycle],
regardless of which individual scenarios fail. -/
theorem runAll_six_results_fixed_order (we : EthersWorld) (wv : ViemWorld) :
    (Ethers.runAll we).map (fun r => r.id.name) =
      ["chain-info", "account-state", "contract-read",
       "tx-send-native", "tx-write-contract", "tx-query-lifecycle"] ∧
    (Viem.runAll wv).map (fun r => r.id.name) =
      ["chain-info", "account-state", "contract-read",
       "tx-send-native", "tx-write-contract", "tx-query-lifecycle"] ∧
    (Ethers.runAll we).length = 6 ∧ (Viem.runAll wv).length = 6 := by
  refine ⟨?_, ?_, rfl, rfl⟩ <;>
    simp [Ethers.runAll, Viem.runAll, Ethers.result1, Ethers.result2, Ethers.result3,
          Ethers.result4, Ethers.result5, Ethers.result6, Viem.result1, Viem.result2,
          Viem.result3, Viem.result4, Viem.result5, Viem.result6, runScenario_id,
          ScenarioId.name]

/-- Claim C2: for every scenario id and every settled task, the Scenario
Executor returns a total (never-throwing) `ScenarioResult`: on a returned
mapping, `success=true`, `output` is that mapping and `error` is absent;
on a thrown value of any kind, `success=false`, `output` is empty and
`error` is the `Error`'s message (or the thrown value's string form),
with the measured duration recorded in both cases. -/
theorem runScenario_envelope (i : ScenarioId) (d : Nat) (t : TaskResult) :
    (∀ out, t = .ok out →
        runScenario i d t =
          { id := i, success := true, durationMs := d, output := out, error := none }) ∧
    (∀ e, t = .error e →
        runScenario i d t =
          { id := i, success := false, durationMs := d, output := []
            error := some e.toMessage }) := by
  constructor
  · intro out h
    subst h
    rfl
  · intro e h
    subst h
    rfl

/-- Witness for C2 at a concrete id, duration and both task outcomes. -/
theorem runScenario_envelope_witness :
    runScenario .chainInfo 7 (.ok [("chainId", Value.num 31337)]) =
      { id := .chainInfo, success := true, durationMs := 7
        output := [("chainId", Value.num 31337)], error := none } ∧
    runScenario .contractRead 3 (.error (.thrown "boom")) =
      { id := .contractRead, success := false, durationMs := 3, output := []
        error := some "boom" } :=
  ⟨(runScenario_envelope .chainInfo 7 (.ok [("chainId", Value.num 31337)])).1
      [("chainId", Value.num 31337)] rfl,
   (runScenario_envelope .contractRead 3 (.error (.thrown "boom"))).2
      (.thrown "boom") rfl⟩

/-- Claim C4: if neither tx-send-native nor tx-write-contract succeeded
(hence neither recorded a transaction hash) earlier in the same `runAll`
invocation, the tx-query-lifecycle result has `success=false` with the
"no transaction hash" error message, and the runner still returns its six
results. -/
theorem lifecycle_no_prior_hash_fails (we : EthersWorld) (wv : ViemWorld) :
    ((Ethers.result4 we).success = false → (Ethers.result5 we).success = false →
       (Ethers.result6 we).success = false ∧
       (Ethers.result6 we).error = some "No transaction hash found from previous steps" ∧
       (Ethers.runAll we).length = 6) ∧
    ((Viem.result4 wv).success = false → (Viem.result5 wv).success = false →
       (Viem.result6 wv).success = false ∧
       (Viem.result6 wv).error = some "No transaction hash found from previous steps" ∧
       (Viem.runAll wv).length = 6) := by
  constructor
  · intro h4 h5
    have hh1 : Ethers.hashes1 we = ⟨none, none⟩ := by
      unfold Ethers.hashes1 Ethers.sendNativeStep
      cases hT : we.sendTx with
      | error e => rfl
      | ok tx =>
        cases hW : we.sendWait with
        | error e => rfl
        | ok rc =>
          exfalso
          simp [Ethers.result4, Ethers.sendNativeStep, hT, hW, runScenario] at h4
    have hh2 : Ethers.hashes2 we = ⟨none, none⟩ := by
      unfold Ethers.hashes2 Ethers.writeContractStep
      rw [hh1]
      cases hT : we.incrementTx with
      | error e => rfl
      | ok tx =>
        cases hW : we.incrementWait with
        | error e => rfl
        | ok rc =>
          exfalso
          simp [Ethers.result5, Ethers.writeContractStep, hT, hW, runScenario] at h5
    refine ⟨?_, ?_, rfl⟩ <;>
      simp [Ethers.result6, Ethers.lifecycleTask, hh2, lifecycleTarget, runScenario,
            JsError.toMessage]
  · intro h4 h5
    have hh1 : Viem.hashes1 wv = ⟨none, none⟩ := by
      unfold Viem.hashes1 Viem.sendNativeStep
      cases hT : wv.sendTx with
      | error e => rfl
      | ok tx =>
        cases hW : wv.sendWait with
        | error e => rfl
        | ok rc =>
          exfalso
          simp [Viem.result4, Viem.sendNativeStep, hT, hW, runScenario] at h4
    have hh2 : Viem.hashes2 wv = ⟨none, none⟩ := by
      unfold Viem.hashes2 Viem.writeContractStep
      rw [hh1]
      cases hT : wv.incrementTx with
      | error e => rfl
      | ok tx =>
        cases hW : wv.incrementWait with
        | error e => rfl
        | ok rc =>
          exfalso
          simp [Viem.result5, Viem.writeContractStep, hT, hW, runScenario] at h5
    refine ⟨?_, ?_, rfl⟩ <;>
      simp [Viem.result6, Viem.lifecycleTask, hh2, lifecycleTarget, runScenario,
            JsError.toMessage]

/-- Witness for C4: with both broadcasts rejecting, each runner's
lifecycle scenario fails with the "no transaction hash" message. -/
theorem lifecycle_no_prior_hash_fails_witness :
    ((Ethers.result6 ethersNoTx).success = false ∧
     (Ethers.result6 ethersNoTx).error = some "No transaction hash found from previous steps" ∧
     (Ethers.runAll ethersNoTx).length = 6) ∧
    ((Viem.result6 viemNoTx).success = false ∧
     (Viem.result6 viemNoTx).error = some "No transaction hash found from previous steps" ∧
     (Viem.runAll viemNoTx).length = 6) :=
  ⟨(lifecycle_no_prior_hash_fails ethersNoTx viemNoTx).1 (by decide) (by decide),
   (lifecycle_no_prior_hash_fails ethersNoTx viemNoTx).2 (by decide) (by decide)⟩

/-- Claim C3: within one `runAll` invocation the tx-query-lifecycle
scenario queries `txHashes.contract ?? txHashes.native`: when
tx-write-contract recorded a hash (exactly when it succeeded) the target
is that hash; otherwise it falls back to the hash recorded by
tx-send-native — i.e. the hash of whichever of the two ran last and
succeeded.  On success the lifecycle output reports the queried hash. -/
theorem lifecycle_queries_last_successful_hash (we : EthersWorld) (wv : ViemWorld) :
    ((Ethers.result5 we).success = true →
       (lifecycleTarget (Ethers.hashes2 we)).isSome = true ∧
       List.lookup "hash" (Ethers.result5 we).output =
         (lifecycleTarget (Ethers.hashes2 we)).map Value.str) ∧
    ((Ethers.result5 we).success = false → (Ethers.result4 we).success = true →
       (lifecycleTarget (Ethers.hashes2 we)).isSome = true ∧
       List.lookup "hash" (Ethers.result4 we).output =
         (lifecycleTarget (Ethers.hashes2 we)).map Value.str) ∧
    ((Ethers.result6 we).success = true →
       List.lookup "hash" (Ethers.result6 we).output =
         (lifecycleTarget (Ethers.hashes2 we)).map Value.str) ∧
    ((Viem.result5 wv).success = true →
       (lifecycleTarget (Viem.hashes2 wv)).isSome = true ∧
       List.lookup "hash" (Viem.result5 wv).output =
         (lifecycleTarget (Viem.hashes2 wv)).map Value.str) ∧
    ((Viem.result5 wv).success = false → (Viem.result4 wv).success = true →
       (lifecycleTarget (Viem.hashes2 wv)).isSome = true ∧
       List.lookup "hash" (Viem.result4 wv).output =
         (lifecycleTarget (Viem.hashes2 wv)).map Value.str) ∧
    ((Viem.result6 wv).success = true →
       List.lookup "hash" (Viem.result6 wv).output =
         (lifecycleTarget (Viem.hashes2 wv)).map Value.str) := by
  refine ⟨?_, ?_, ?_, ?_, ?_, ?_⟩
  · intro h5
    cases hT : we.incrementTx with
    | error e => simp [Ethers.result5, Ethers.writeContractStep, hT, runScenario] at h5
    | ok tx =>
      cases hW : we.incrementWait with
      | error e => simp [Ethers.result5, Ethers.writeContractStep, hT, hW, runScenario] at h5
      | ok rc =>
        constructor <;>
          simp [Ethers.result5, Ethers.hashes2, Ethers.writeContractStep, hT, hW,
                runScenario, lifecycleTarget, List.lookup]
  · intro h5 h4
    have hh2 : Ethers.hashes2 we = Ethers.hashes1 we := by
      unfold Ethers.hashes2 Ethers.writeContractStep
      cases hT : we.incrementTx with
      | error e => rfl
      | ok tx =>
        cases hW : we.incrementWait with
        | error e => rfl
        | ok rc =>
          exfalso
          simp [Ethers.result5, Ethers.writeContractStep, hT, hW, runScenario] at h5
    cases hT : we.sendTx with
    | error e => simp [Ethers.result4, Ethers.sendNativeStep, hT, runScenario] at h4
    | ok tx =>
      cases hW : we.sendWait with
      | error e => simp [Ethers.result4, Ethers.sendNativeStep, hT, hW, runScenario] at h4
      | ok rc =>
        have hc : (Ethers.hashes1 we).contract = none := by
          unfold Ethers.hashes1 Ethers.sendNativeStep
          rw [hT, hW]
        constructor <;>
          simp [hh2, Ethers.result4, Ethers.hashes1, Ethers.sendNativeStep, hT, hW,
                runScenario, lifecycleTarget, List.lookup]
  · intro h6
    cases hTgt : lifecycleTarget (Ethers.hashes2 we) with
    | none => simp [Ethers.result6, Ethers.lifecycleTask, hTgt, runScenario] at h6
    | some s =>
      cases hGT : we.getTransaction s with
      | error e => simp [Ethers.result6, Ethers.lifecycleTask, hTgt, hGT, runScenario, Bind.bind, Except.bind, Functor.map, Except.map] at h6
      | ok tx =>
        cases hGR : we.getTransactionReceipt s with
        | error e =>
          simp [Ethers.result6, Ethers.lifecycleTask, hTgt, hGT, hGR, runScenario, Bind.bind, Except.bind, Functor.map, Except.map] at h6
        | ok rc =>
          cases hBN : we.blockNumber1 with
          | error e =>
            simp [Ethers.result6, Ethers.lifecycleTask, hTgt, hGT, hGR, hBN, runScenario, Bind.bind, Except.bind, Functor.map, Except.map] at h6
          | ok bn =>
            simp [Ethers.result6, Ethers.lifecycleTask, hTgt, hGT, hGR, hBN, runScenario,
                  List.lookup]
  · intro h5
    cases hT : wv.incrementTx with
    | error e => simp [Viem.result5, Viem.writeContractStep, hT, runScenario] at h5
    | ok tx =>
      cases hW : wv.incrementWait with
      | error e => simp [Viem.result5, Viem.writeContractStep, hT, hW, runScenario] at h5
      | ok rc =>
        constructor <;>
          simp [Viem.result5, Viem.hashes2, Viem.writeContractStep, hT, hW,
                runScenario, lifecycleTarget, List.lookup]
  · intro h5 h4
    have hh2 : Viem.hashes2 wv = Viem.hashes1 wv := by
      unfold Viem.hashes2 Viem.writeContractStep
      cases hT : wv.incrementTx with
      | error e => rfl
      | ok tx =>
        cases hW : wv.incrementWait with
        | error e => rfl
        | ok rc =>
          exfalso
          simp [Viem.result5, Viem.writeContractStep, hT, hW, runScenario] at h5
    cases hT : wv.sendTx with
    | error e => simp [Viem.result4, Viem.sendNativeStep, hT, runScenario] at h4
    | ok tx =>
      cases hW : wv.sendWait with
      | error e => simp [Viem.result4, Viem.sendNativeStep, hT, hW, runScenario] at h4
      | ok rc =>
        constructor <;>
          simp [hh2, Viem.result4, Viem.hashes1, Viem.sendNativeStep, hT, hW,
                runScenario, lifecycleTarget, List.lookup]
  · intro h6
    cases hTgt : lifecycleTarget (Viem.hashes2 wv) with
    | none => simp [Viem.result6, Viem.lifecycleTask, hTgt, runScenario] at h6
    | some s =>
      cases hGT : wv.getTransaction s with
      | error e => simp [Viem.result6, Viem.lifecycleTask, hTgt, hGT, runScenario, Bind.bind, Except.bind, Functor.map, Except.map] at h6
      | ok tx =>
        cases hGR : wv.getTransactionReceipt s with
        | error e =>
          simp [Viem.result6, Viem.lifecycleTask, hTgt, hGT, hGR, runScenario, Bind.bind, Except.bind, Functor.map, Except.map] at h6
        | ok rc =>
          cases hBN : wv.blockNumber1 with
          | error e =>
            simp [Viem.result6, Viem.lifecycleTask, hTgt, hGT, hGR, hBN, runScenario, Bind.bind, Except.bind, Functor.map, Except.map] at h6
          | ok bn =>
            simp [Viem.result6, Viem.lifecycleTask, hTgt, hGT, hGR, hBN, runScenario,
                  List.lookup]

/-- An ethers run where only the contract increment rejects. -/
def ethersHalfTx : EthersWorld :=
  { ethersAllOk with incrementTx := .error (.error "execution reverted") }

/-- A viem run where only the contract increment rejects. -/
def viemHalfTx : ViemWorld :=
  { viemAllOk with incrementTx := .error (.error "execution reverted") }

/-- Witness for C3: the contract hash is the target on a full run, the
native hash on a run whose increment rejected, and the lifecycle output
reports the target, for both runners. -/
theorem lifecycle_queries_last_successful_hash_witness :
    ((lifecycleTarget (Ethers.hashes2 ethersAllOk)).isSome = true ∧
     List.lookup "hash" (Ethers.result5 ethersAllOk).output =
       (lifecycleTarget (Ethers.hashes2 ethersAllOk)).map Value.str) ∧
    ((lifecycleTarget (Ethers.hashes2 ethersHalfTx)).isSome = true ∧
     List.lookup "hash" (Ethers.result4 ethersHalfTx).output =
       (lifecycleTarget (Ethers.hashes2 ethersHalfTx)).map Value.str) ∧
    (List.lookup "hash" (Ethers.result6 ethersAllOk).output =
       (lifecycleTarget (Ethers.hashes2 ethersAllOk)).map Value.str) ∧
    ((lifecycleTarget (Viem.hashes2 viemAllOk)).isSome = true ∧
     List.lookup "hash" (Viem.result5 viemAllOk).output =
       (lifecycleTarget (Viem.hashes2 viemAllOk)).map Value.str) ∧
    ((lifecycleTarget (Viem.hashes2 viemHalfTx)).isSome = true ∧
     List.lookup "hash" (Viem.result4 viemHalfTx).output =
       (lifecycleTarget (Viem.hashes2 viemHalfTx)).map Value.str) ∧
    (List.lookup "hash" (Viem.result6 viemAllOk).output =
       (lifecycleTarget (Viem.hashes2 viemAllOk)).map Value.str) :=
  ⟨(lifecycle_queries_last_successful_hash ethersAllOk viemAllOk).1 (by decide),
   (lifecycle_queries_last_successful_hash ethersHalfTx viemAllOk).2.1 (by decide) (by decide),
   (lifecycle_queries_last_successful_hash ethersAllOk viemAllOk).2.2.1 (by decide),
   (lifecycle_queries_last_successful_hash ethersAllOk viemAllOk).2.2.2.1 (by decide),
   (lifecycle_queries_last_successful_hash ethersAllOk viemHalfTx).2.2.2.2.1
      (by decide) (by decide),
   (lifecycle_queries_last_successful_hash ethersAllOk viemAllOk).2.2.2.2.2 (by decide)⟩

/-- Claim C7: round-trip within one `runAll` invocation — when
tx-write-contract succeeds, the hash string in its output is exactly the
hash tx-query-lifecycle uses as its query input immediately after (and,
when the lifecycle succeeds, the hash it reports back). -/
theorem write_hash_roundtrip (we : EthersWorld) (wv : ViemWorld) :
    ((Ethers.result5 we).success = true →
       List.lookup "hash" (Ethers.result5 we).output =
         (lifecycleTarget (Ethers.hashes2 we)).map Value.str ∧
       ((Ethers.result6 we).success = true →
          List.lookup "hash" (Ethers.result6 we).output =
            List.lookup "hash" (Ethers.result5 we).output)) ∧
    ((Viem.result5 wv).success = true →
       List.lookup "hash" (Viem.result5 wv).output =
         (lifecycleTarget (Viem.hashes2 wv)).map Value.str ∧
       ((Viem.result6 wv).success = true →
          List.lookup "hash" (Viem.result6 wv).output =
            List.lookup "hash" (Viem.result5 wv).output)) := by
  constructor
  · intro h5
    cases hT : we.incrementTx with
    | error e => simp [Ethers.result5, Ethers.writeContractStep, hT, runScenario] at h5
    | ok tx =>
      cases hW : we.incrementWait with
      | error e => simp [Ethers.result5, Ethers.writeContractStep, hT, hW, runScenario] at h5
      | ok rc =>
        have hTgt : lifecycleTarget (Ethers.hashes2 we) = some tx.hash := by
          simp [Ethers.hashes2, Ethers.writeContractStep, hT, hW, lifecycleTarget]
        have h5out : List.lookup "hash" (Ethers.result5 we).output =
            some (Value.str tx.hash) := by
          simp [Ethers.result5, Ethers.writeContractStep, hT, hW, runScenario, List.lookup]
        refine ⟨by simp [h5out, hTgt], ?_⟩
        intro h6
        cases hGT : we.getTransaction tx.hash with
        | error e =>
          simp [Ethers.result6, Ethers.lifecycleTask, hTgt, hGT, runScenario,
                Bind.bind, Except.bind] at h6
        | ok t =>
          cases hGR : we.getTransactionReceipt tx.hash with
          | error e =>
            simp [Ethers.result6, Ethers.lifecycleTask, hTgt, hGT, hGR, runScenario,
                  Bind.bind, Except.bind] at h6
          | ok r =>
            cases hBN : we.blockNumber1 with
            | error e =>
              simp [Ethers.result6, Ethers.lifecycleTask, hTgt, hGT, hGR, hBN, runScenario,
                    Bind.bind, Except.bind, Functor.map, Except.map] at h6
            | ok bn =>
              simp [Ethers.result6, Ethers.lifecycleTask, hTgt, hGT, hGR, hBN, runScenario,
                    List.lookup, h5out]
  · intro h5
    cases hT : wv.incrementTx with
    | error e => simp [Viem.result5, Viem.writeContractStep, hT, runScenario] at h5
    | ok hash =>
      cases hW : wv.incrementWait with
      | error e => simp [Viem.result5, Viem.writeContractStep, hT, hW, runScenario] at h5
      | ok rc =>
        have hTgt : lifecycleTarget (Viem.hashes2 wv) = some hash := by
          simp [Viem.hashes2, Viem.writeContractStep, hT, hW, lifecycleTarget]
        have h5out : List.lookup "hash" (Viem.result5 wv).output =
            some (Value.str hash) := by
          simp [Viem.result5, Viem.writeContractStep, hT, hW, runScenario, List.lookup]
        refine ⟨by simp [h5out, hTgt], ?_⟩
        intro h6
        cases hGT : wv.getTransaction hash with
        | error e =>
          simp [Viem.result6, Viem.lifecycleTask, hTgt, hGT, runScenario,
                Bind.bind, Except.bind] at h6
        | ok t =>
          cases hGR : wv.getTransactionReceipt hash with
          | error e =>
            simp [Viem.result6, Viem.lifecycleTask, hTgt, hGT, hGR, runScenario,
                  Bind.bind, Except.bind] at h6
          | ok r =>
            cases hBN : wv.blockNumber1 with
            | error e =>
              simp [Viem.result6, Viem.lifecycleTask, hTgt, hGT, hGR, hBN, runScenario,
                    Bind.bind, Except.bind, Functor.map, Except.map] at h6
            | ok bn =>
              simp [Viem.result6, Viem.lifecycleTask, hTgt, hGT, hGR, hBN, runScenario,
                    List.lookup, h5out]

/-- Witness for C7 on the fully-successful runs. -/
theorem write_hash_roundtrip_witness :
    (List.lookup "hash" (Ethers.result5 ethersAllOk).output =
       (lifecycleTarget (Ethers.hashes2 ethersAllOk)).map Value.str ∧
     ((Ethers.result6 ethersAllOk).success = true →
        List.lookup "hash" (Ethers.result6 ethersAllOk).output =
          List.lookup "hash" (Ethers.result5 ethersAllOk).output)) ∧
    (List.lookup "hash" (Viem.result5 viemAllOk).output =
       (lifecycleTarget (Viem.hashes2 viemAllOk)).map Value.str ∧
     ((Viem.result6 viemAllOk).success = true →
        List.lookup "hash" (Viem.result6 viemAllOk).output =
          List.lookup "hash" (Viem.result5 viemAllOk).output)) :=
  ⟨(write_hash_roundtrip ethersAllOk viemAllOk).1 (by decide),
   (write_hash_roundtrip ethersAllOk viemAllOk).2 (by decide)⟩

/-- Counterexample to C5 as stated: on a fully-successful viem run the
tx-query-lifecycle scenario succeeds, yet its output carries no
`hasTransaction` / `hasReceipt` existence flags — only the ethers runner
reports them. -/
theorem viem_lifecycle_output_lacks_existence_flags :
    (Viem.result6 viemAllOk).success = true ∧
    List.lookup "hasTransaction" (Viem.result6 viemAllOk).output = none ∧
    List.lookup "hasReceipt" (Viem.result6 viemAllOk).output = none ∧
    List.lookup "hasTransaction" (Ethers.result6 ethersAllOk).output =
      some (Value.bool true) := by
  decide

/-- Claim C5 (amended): on success the tx-query-lifecycle output reports
the receipt status and a confirmation count equal to
(current block − inclusion block + 1) in both runners (the ethers runner
computes it only when the transaction exists with a nonzero inclusion
block); existence flags for the transaction and its receipt are reported
by the ethers runner only — the viem output has none. -/
theorem lifecycle_success_output (we : EthersWorld) (wv : ViemWorld) :
    (∀ s bn cur rc, lifecycleTarget (Ethers.hashes2 we) = some s →
       we.getTransaction s = .ok (some ⟨some bn⟩) →
       we.getTransactionReceipt s = .ok rc →
       we.blockNumber1 = .ok cur →
       bn ≠ 0 →
       (Ethers.result6 we).success = true ∧
       List.lookup "hasTransaction" (Ethers.result6 we).output = some (Value.bool true) ∧
       List.lookup "hasReceipt" (Ethers.result6 we).output = some (Value.bool rc.isSome) ∧
       List.lookup "status" (Ethers.result6 we).output =
         some (optIntValue (rc.bind EthersTxReceipt.status)) ∧
       List.lookup "confirmations" (Ethers.result6 we).output =
         some (Value.num (cur - bn + 1))) ∧
    (∀ s tx rc cur, lifecycleTarget (Viem.hashes2 wv) = some s →
       wv.getTransaction s = .ok tx →
       wv.getTransactionReceipt s = .ok rc →
       wv.blockNumber1 = .ok cur →
       (Viem.result6 wv).success = true ∧
       List.lookup "status" (Viem.result6 wv).output = some (Value.str rc.status) ∧
       List.lookup "confirmations" (Viem.result6 wv).output =
         some (Value.num (cur - tx.blockNumber + 1)) ∧
       List.lookup "hasTransaction" (Viem.result6 wv).output = none ∧
       List.lookup "hasReceipt" (Viem.result6 wv).output = none) := by
  constructor
  · intro s bn cur rc hTgt hGT hGR hBN hbn
    refine ⟨?_, ?_, ?_, ?_, ?_⟩ <;>
      simp [Ethers.result6, Ethers.lifecycleTask, hTgt, hGT, hGR, hBN, hbn, runScenario,
            List.lookup, Bind.bind, Except.bind, Pure.pure, Except.pure]
  · intro s tx rc cur hTgt hGT hGR hBN
    refine ⟨?_, ?_, ?_, ?_, ?_⟩ <;>
      simp [Viem.result6, Viem.lifecycleTask, hTgt, hGT, hGR, hBN, runScenario,
            List.lookup, Bind.bind, Except.bind, Pure.pure, Except.pure]

/-- Witness for the amended C5 on the fully-successful runs. -/
theorem lifecycle_success_output_witness :
    ((Ethers.result6 ethersAllOk).success = true ∧
     List.lookup "hasTransaction" (Ethers.result6 ethersAllOk).output =
       some (Value.bool true) ∧
     List.lookup "hasReceipt" (Ethers.result6 ethersAllOk).output =
       some (Value.bool (some (⟨some 1, 102⟩ : EthersTxReceipt)).isSome) ∧
     List.lookup "status" (Ethers.result6 ethersAllOk).output =
       some (optIntValue ((some (⟨some 1, 102⟩ : EthersTxReceipt)).bind
         EthersTxReceipt.status)) ∧
     List.lookup "confirmations" (Ethers.result6 ethersAllOk).output =
       some (Value.num ((105 : Int) - 102 + 1))) ∧
    ((Viem.result6 viemAllOk).success = true ∧
     List.lookup "status" (Viem.result6 viemAllOk).output =
       some (Value.str (ViemReceipt.mk "success" 102).status) ∧
     List.lookup "confirmations" (Viem.result6 viemAllOk).output =
       some (Value.num ((105 : Int) - (ViemTx.mk 102 (some "0xdc64")).blockNumber + 1)) ∧
     List.lookup "hasTransaction" (Viem.result6 viemAllOk).output = none ∧
     List.lookup "hasReceipt" (Viem.result6 viemAllOk).output = none) :=
  ⟨(lifecycle_success_output ethersAllOk viemAllOk).1 "0xbbb2" 102 105
      (some ⟨some 1, 102⟩) (by decide) rfl rfl rfl (by decide),
   (lifecycle_success_output ethersAllOk viemAllOk).2 "0xbbb2" ⟨102, some "0xdc64"⟩
      ⟨"success", 102⟩ 105 (by decide) rfl rfl rfl⟩

/-- Folding durations from `n` equals `n` plus their sum. -/
theorem foldl_durations (results : List ScenarioResult) (n : Nat) :
    results.foldl (fun sum r => sum + r.durationMs) n =
      n + (results.map (fun r => r.durationMs)).sum := by
  induction results generalizing n with
  | nil => simp
  | cons a t ih => simp [List.foldl, ih]; omega

/-- Claim C8: the per-runner section's summary reports `passed` = the
number of successful results, `failed` = list length minus `passed`, and
`totalMs` = the sum of all durations; each table row shows PASS with the
JSON-stringified output on success and FAIL with the error string on
failure, carrying the result's duration and id. -/
theorem client_section_summary_and_rows (results : List ScenarioResult) :
    (summarize results).passed = results.countP (fun r => r.success) ∧
    (summarize results).failed = results.length - results.countP (fun r => r.success) ∧
    (summarize results).totalMs = (results.map (fun r => r.durationMs)).sum ∧
    ∀ r ∈ results,
      (r.success = true → (clientRow r).status = "PASS" ∧
         (clientRow r).details = jsonStringify r.output) ∧
      (r.success = false → (clientRow r).status = "FAIL" ∧
         (clientRow r).details = r.error.getD "") ∧
      (clientRow r).durationMs = r.durationMs ∧ (clientRow r).id = r.id := by
  refine ⟨?_, ?_, ?_, ?_⟩
  · simp [summarize, List.countP_eq_length_filter]
  · simp [summarize, List.countP_eq_length_filter]
  · simp [summarize, foldl_durations]
  · intro r _hr
    refine ⟨?_, ?_, rfl, rfl⟩
    · intro hs
      simp [clientRow, hs]
    · intro hs
      simp [clientRow, hs]

/-- A successful sample result. -/
def sampleOk : ScenarioResult :=
  { id := .chainInfo, success := true, durationMs := 5
    output := [("chainId", Value.num 31337)], error := none }

/-- A failed sample result. -/
def sampleFail : ScenarioResult :=
  { id := .contractRead, success := false, durationMs := 3, output := []
    error := some "boom" }

/-- Witness for C8 on a two-element result list. -/
theorem client_section_summary_and_rows_witness :
    (summarize [sampleOk, sampleFail]).passed =
      [sampleOk, sampleFail].countP (fun r => r.success) ∧
    (summarize [sampleOk, sampleFail]).totalMs =
      ([sampleOk, sampleFail].map (fun r => r.durationMs)).sum ∧
    ((clientRow sampleOk).status = "PASS" ∧
     (clientRow sampleOk).details = jsonStringify sampleOk.output) ∧
    ((clientRow sampleFail).status = "FAIL" ∧
     (clientRow sampleFail).details = sampleFail.error.getD "") :=
  ⟨(client_section_summary_and_rows [sampleOk, sampleFail]).1,
   (client_section_summary_and_rows [sampleOk, sampleFail]).2.2.1,
   ((client_section_summary_and_rows [sampleOk, sampleFail]).2.2.2 sampleOk
      (by decide)).1 rfl,
   ((client_section_summary_and_rows [sampleOk, sampleFail]).2.2.2 sampleFail
      (by decide)).2.1 rfl⟩

/-- Claim C9: if any required environment variable (RPC_URL, PRIVATE_KEY,
TO_ADDRESS) is unset or the deployment file is absent, the run aborts
before any scenario executes, with a logged error and exit code 1. -/
theorem missing_config_aborts_run (env : ProcessEnv) (we : EthersWorld) (wv : ViemWorld) :
    (env.deployment = none ∨ env.vars "RPC_URL" = none ∨
     env.vars "PRIVATE_KEY" = none ∨ env.vars "TO_ADDRESS" = none) →
    (mainRun env we wv).exitCode = 1 ∧
    (mainRun env we wv).scenariosExecuted = 0 ∧
    (mainRun env we wv).loggedError.isSome = true := by
  intro h
  cases hld : loadContext env with
  | error e => simp [mainRun, hld]
  | ok ctx =>
    exfalso
    revert hld
    unfold loadContext
    cases hd : env.deployment with
    | none => simp
    | some addr =>
      rcases h with h | h | h | h
      · rw [hd] at h
        cases h
      · simp [requireEnv, h, Bind.bind, Except.bind]
      · cases hrpc : env.vars "RPC_URL" with
        | none => simp [requireEnv, hrpc, Bind.bind, Except.bind]
        | some v =>
          by_cases hv : v = ""
          · simp [requireEnv, hrpc, hv, Bind.bind, Except.bind]
          · simp [requireEnv, hrpc, hv, h, Bind.bind, Except.bind]
      · cases hrpc : env.vars "RPC_URL" with
        | none => simp [requireEnv, hrpc, Bind.bind, Except.bind]
        | some v =>
          by_cases hv : v = ""
          · simp [requireEnv, hrpc, hv, Bind.bind, Except.bind]
          · cases hpk : env.vars "PRIVATE_KEY" with
            | none => simp [requireEnv, hrpc, hv, hpk, Bind.bind, Except.bind]
            | some p =>
              by_cases hp : p = ""
              · simp [requireEnv, hrpc, hv, hpk, hp, Bind.bind, Except.bind]
              · simp [requireEnv, hrpc, hv, hpk, hp, h, Bind.bind, Except.bind]

/-- An environment with nothing configured. -/
def emptyEnv : ProcessEnv := { vars := fun _ => none, deployment := none }

/-- Witness for C9 on the empty environment. -/
theorem missing_config_aborts_run_witness :
    (mainRun emptyEnv ethersAllOk viemAllOk).exitCode = 1 ∧
    (mainRun emptyEnv ethersAllOk viemAllOk).scenariosExecuted = 0 ∧
    (mainRun emptyEnv ethersAllOk viemAllOk).loggedError.isSome = true :=
  missing_config_aborts_run emptyEnv ethersAllOk viemAllOk (Or.inl rfl)

/-- In a list whose ids are pairwise distinct, the first result found for
a member's id is that member. -/
theorem find_id_of_nodup {l : List ScenarioResult} {r : ScenarioResult}
    (hnd : (l.map (fun x => x.id)).Nodup) (hm : r ∈ l) :
    l.find? (fun x => x.id == r.id) = some r := by
  induction l with
  | nil => cases hm
  | cons a t ih =>
    rw [List.map_cons, List.nodup_cons] at hnd
    rcases List.mem_cons.mp hm with rfl | hm'
    · exact List.find?_cons_of_pos _ (by simp)
    · have hne : ¬ a.id = r.id := by
        intro he
        exact hnd.1 (he ▸ List.mem_map_of_mem (fun x => x.id) hm')
      rw [List.find?_cons_of_neg _ (by simpa using hne)]
      exact ih hnd.2 hm'

/-- On equal-duration rows the winner is the tie marker; otherwise it
names the side with the strictly smaller duration. -/
theorem winner_field_spec (a b : Nat) :
    ((if a = b then "tie" else if a < b then "ethers" else "viem") = "tie" ↔ a = b) ∧
    (a ≠ b → (if a = b then "tie" else if a < b then "ethers" else "viem") =
       if a < b then "ethers" else "viem") := by
  constructor
  · constructor
    · intro hw
      by_contra hne
      rw [if_neg hne] at hw
      by_cases hlt : a < b
      · rw [if_pos hlt] at hw
        exact absurd hw (by decide)
      · rw [if_neg hlt] at hw
        exact absurd hw (by decide)
    · intro he
      rw [if_pos he]
  · intro hne
    rw [if_neg hne]

/-- Claim C6: given two result lists of length six with pairwise-distinct
scenario ids, the speed-comparison table has exactly one row per id of the
ethers list, in that order; each row's winner is `tie` iff its two
durations are equal and otherwise the runner with the strictly smaller
duration; and the row built for a matching pair of results carries their
two durations. -/
theorem comparison_rows_spec (es vs : List ScenarioResult)
    (hlen : es.length = 6)
    (hnd : (es.map (fun r => r.id)).Nodup)
    (hndv : (vs.map (fun r => r.id)).Nodup) :
    (renderComparisonRows es vs).map (fun row => row.id) = es.map (fun r => r.id) ∧
    (renderComparisonRows es vs).length = 6 ∧
    (∀ row ∈ renderComparisonRows es vs,
       (row.winner = "tie" ↔ row.eMs = row.vMs) ∧
       (row.eMs ≠ row.vMs → row.winner =
          if row.eMs < row.vMs then "ethers" else "viem")) ∧
    (∀ e ∈ es, ∀ v ∈ vs, v.id = e.id →
       ComparisonRow.mk e.id e.durationMs v.durationMs
         (if e.durationMs = v.durationMs then "tie"
          else if e.durationMs < v.durationMs then "ethers" else "viem")
         ∈ renderComparisonRows es vs) := by
  refine ⟨?_, ?_, ?_, ?_⟩
  · simp [renderComparisonRows, List.map_map]
  · simp [renderComparisonRows, hlen]
  · intro row hrow
    rw [renderComparisonRows, List.mem_map] at hrow
    rcases hrow with ⟨i, _hi, rfl⟩
    exact winner_field_spec _ _
  · intro e he v hv hid
    have hfe : es.find? (fun x => x.id == e.id) = some e := find_id_of_nodup hnd he
    have hfv : vs.find? (fun x => x.id == e.id) = some v := by
      rw [← hid]
      exact find_id_of_nodup hndv hv
    have hmem : e.id ∈ es.map (fun r => r.id) := List.mem_map_of_mem (fun r => r.id) he
    have := List.mem_map_of_mem
      (fun id =>
        let fe := es.find? (fun r => r.id == id)
        let fv := vs.find? (fun r => r.id == id)
        let eMs := (fe.map (fun r => r.durationMs)).getD 0
        let vMs := (fv.map (fun r => r.durationMs)).getD 0
        ComparisonRow.mk id eMs vMs
          (if eMs = vMs then "tie" else if eMs < vMs then "ethers" else "viem"))
      hmem
    rw [renderComparisonRows]
    simpa [hfe, hfv] using this

/-- A sample ethers result list with the six ids in order. -/
def esSample : List ScenarioResult :=
  [⟨.chainInfo, true, 5, [], none⟩,
   ⟨.accountState, true, 8, [], none⟩,
   ⟨.contractRead, true, 8, [], none⟩,
   ⟨.txSendNative, false, 4, [], some "insufficient funds"⟩,
   ⟨.txWriteContract, true, 9, [], none⟩,
   ⟨.txQueryLifecycle, true, 9, [], none⟩]

/-- A sample viem result list with the six ids in order. -/
def vsSample : List ScenarioResult :=
  [⟨.chainInfo, true, 5, [], none⟩,
   ⟨.accountState, true, 9, [], none⟩,
   ⟨.contractRead, true, 7, [], none⟩,
   ⟨.txSendNative, true, 4, [], none⟩,
   ⟨.txWriteContract, true, 2, [], none⟩,
   ⟨.txQueryLifecycle, false, 9, [], some "not found"⟩]

/-- Witness for C6 on the sample lists: six rows carrying the ethers ids,
and the contract-read row (durations 8 vs 7) names viem as winner. -/
theorem comparison_rows_spec_witness :
    (renderComparisonRows esSample vsSample).map (fun row => row.id) =
      esSample.map (fun r => r.id) ∧
    (renderComparisonRows esSample vsSample).length = 6 ∧
    ComparisonRow.mk ScenarioId.contractRead 8 7 "viem" ∈
      renderComparisonRows esSample vsSample ∧
    ((ComparisonRow.mk ScenarioId.contractRead 8 7 "viem").winner = "tie" ↔
       (8 : Nat) = 7) ∧
    (ComparisonRow.mk ScenarioId.contractRead 8 7 "viem").winner =
      (if (8 : Nat) < 7 then "ethers" else "viem") :=
  have h := comparison_rows_spec esSample vsSample (by decide) (by decide) (by decide)
  have hmem : ComparisonRow.mk ScenarioId.contractRead 8 7 "viem" ∈
      renderComparisonRows esSample vsSample :=
    h.2.2.2 ⟨.contractRead, true, 8, [], none⟩ (by decide)
      ⟨.contractRead, true, 7, [], none⟩ (by decide) rfl
  ⟨h.1, h.2.1, hmem, (h.2.2.1 _ hmem).1, (h.2.2.1 _ hmem).2 (by decide)⟩

/-- Claim C10 (implicit): a scenario id taken from the ethers list with no
matching result on the viem side gets duration 0 for that side, so with a
positive ethers duration the comparison row reports the absent side as the
strictly-faster winner instead of flagging it. -/
theorem missing_result_side_wins (es vs : List ScenarioResult) (r : ScenarioResult)
    (hr : r ∈ es) (hnd : (es.map (fun x => x.id)).Nodup)
    (hmiss : ∀ v ∈ vs, ¬ v.id = r.id) (hpos : 0 < r.durationMs) :
    ComparisonRow.mk r.id r.durationMs 0 "viem" ∈ renderComparisonRows es vs := by
  have hfe := find_id_of_nodup hnd hr
  have hfv : vs.find? (fun x => x.id == r.id) = none := by
    rw [List.find?_eq_none]
    intro x hx
    simpa using hmiss x hx
  have hmem : r.id ∈ es.map (fun x => x.id) := List.mem_map_of_mem (fun x => x.id) hr
  have hm2 := List.mem_map_of_mem
    (fun id =>
      let fe := es.find? (fun x => x.id == id)
      let fv := vs.find? (fun x => x.id == id)
      let eMs := (fe.map (fun x => x.durationMs)).getD 0
      let vMs := (fv.map (fun x => x.durationMs)).getD 0
      ComparisonRow.mk id eMs vMs
        (if eMs = vMs then "tie" else if eMs < vMs then "ethers" else "viem"))
    hmem
  have hne : ¬ r.durationMs = 0 := Nat.pos_iff_ne_zero.mp hpos
  rw [renderComparisonRows]
  simpa [hfe, hfv, hne] using hm2

/-- An ethers list whose single scenario has no viem counterpart. -/
def esOnly : List ScenarioResult := [⟨.chainInfo, true, 5, [], none⟩]

/-- Witness for C10: against an empty viem list, the chain-info row reads
5 vs 0 and credits viem as the winner. -/
theorem missing_result_side_wins_witness :
    ComparisonRow.mk ScenarioId.chainInfo 5 0 "viem" ∈
      renderComparisonRows esOnly [] :=
  missing_result_side_wins esOnly [] ⟨.chainInfo, true, 5, [], none⟩
    (by decide) (by decide) (by decide) (by decide)
